import Mathlib

/-!
Verification of the track-monitoring dashboard core (src/main.py):
sensor thresholds, the weighted health score, the per-tick alert
evaluation, the capacity-100 history buffers, and the Clear Data handler.
Sensor values are modelled as rationals; timestamps as naturals.
-/

/-- The four monitored metrics (the keys of `THRESHOLDS` and of a reading). -/
inductive Metric : Type
  | acoustic
  | vibration
  | temperature
  | humidity
deriving DecidableEq, Repr

/-- One entry of the `THRESHOLDS` table in src/main.py:
warning level, danger level, unit label, and the configured min/max range. -/
structure ThresholdSpec where
  warning : ℚ
  danger : ℚ
  unit : String
  min : ℚ
  max : ℚ
deriving DecidableEq, Repr

/-- The `THRESHOLDS` constant of src/main.py (lines 41-46). -/
def THRESHOLDS : Metric → ThresholdSpec
  | .acoustic => { warning := 65, danger := 75, unit := "dB", min := 40, max := 90 }
  | .vibration => { warning := 1/2, danger := 7/10, unit := "g", min := 0, max := 1 }
  | .temperature => { warning := 28, danger := 30, unit := "°C", min := 20, max := 35 }
  | .humidity => { warning := 65, danger := 75, unit := "%", min := 30, max := 90 }

/-- The name under which a metric appears in alert messages
(the Python dict key interpolated into the f-string). -/
def metricName : Metric → String
  | .acoustic => "acoustic"
  | .vibration => "vibration"
  | .temperature => "temperature"
  | .humidity => "humidity"

/-- The iteration order of the `new_data` dict in src/main.py: Python dicts
iterate in insertion order, which is the order of `generate_sensor_data`. -/
def metricsOrder : List Metric := [.acoustic, .vibration, .temperature, .humidity]

/-- A sensor reading: one value per metric, as produced by
`generate_sensor_data` (src/main.py lines 72-78). -/
structure Reading where
  acoustic : ℚ
  vibration : ℚ
  temperature : ℚ
  humidity : ℚ
deriving DecidableEq, Repr

/-- Look up a reading's value for a metric (the dict access `data[metric]`). -/
def Reading.value (r : Reading) : Metric → ℚ
  | .acoustic => r.acoustic
  | .vibration => r.vibration
  | .temperature => r.temperature
  | .humidity => r.humidity

/-- The `weights` dict of `calculate_health_score` (src/main.py line 81). -/
def weights : Metric → ℚ
  | .acoustic => 3/10
  | .vibration => 3/10
  | .temperature => 1/5
  | .humidity => 1/5

/-- The `normalized_values` dict of `calculate_health_score`
(src/main.py lines 82-88). -/
def normalized_values (data : Reading) : Metric → ℚ
  | .acoustic => 1 - (data.acoustic - (THRESHOLDS .acoustic).min) /
      ((THRESHOLDS .acoustic).max - (THRESHOLDS .acoustic).min)
  | .vibration => 1 - data.vibration
  | .temperature => 1 - |data.temperature - 25| / 15
  | .humidity => 1 - |data.humidity - 60| / 40

/-- `calculate_health_score` (src/main.py lines 80-89): the weighted sum of
the normalized values over the keys of `weights`, times 100. -/
def calculate_health_score (data : Reading) : ℚ :=
  (metricsOrder.map (fun key => normalized_values data key * weights key)).sum * 100

/-- Alert severity: the `type` field of an alert dict in src/main.py. -/
inductive AlertType : Type
  | CRITICAL
  | WARNING
deriving DecidableEq, Repr

/-- One alert dict as built in `update_monitoring_data`
(src/main.py lines 115-125): time, type and message. -/
structure AlertRecord where
  time : ℕ
  type : AlertType
  message : String
deriving DecidableEq, Repr

/-- Round `q * 10` to the nearest integer, ties to even — the rounding of
Python's `:.1f` format applied to an exactly representable value. -/
def roundTenths (q : ℚ) : ℤ :=
  let x : ℚ := q * 10
  let f : ℤ := ⌊x⌋
  let frac : ℚ := x - f
  if frac < 1/2 then f
  else if frac > 1/2 then f + 1
  else if f % 2 = 0 then f else f + 1

/-- The Python format `f"{value:.1f}"`: one digit after the decimal point. -/
def format1 (q : ℚ) : String :=
  let n : ℤ := roundTenths q
  let sign : String := if n < 0 then "-" else ""
  let a : ℕ := n.natAbs
  sign ++ toString (a / 10) ++ "." ++ toString (a % 10)

/-- The alerts one metric contributes in one pass of the alert loop of
`update_monitoring_data` (src/main.py lines 113-125): a Critical alert when
the value reaches the danger level, else a Warning alert when it reaches the
warning level, else none. -/
def alertsForMetric (t : ℕ) (m : Metric) (v : ℚ) : List AlertRecord :=
  if v ≥ (THRESHOLDS m).danger then
    [{ time := t, type := .CRITICAL,
       message := "High " ++ metricName m ++ " level detected: " ++ format1 v
         ++ " " ++ (THRESHOLDS m).unit }]
  else if v ≥ (THRESHOLDS m).warning then
    [{ time := t, type := .WARNING,
       message := "Elevated " ++ metricName m ++ " level: " ++ format1 v
         ++ " " ++ (THRESHOLDS m).unit }]
  else []

/-- The alert loop of `update_monitoring_data` (src/main.py lines 113-125):
for each metric in dict order, the emitted alert (if any) is inserted at
index 0 of the alert log (`alerts.insert(0, ...)`). -/
def updateAlerts (t : ℕ) (r : Reading) (log : List AlertRecord) : List AlertRecord :=
  metricsOrder.foldl (fun acc m => alertsForMetric t m (r.value m) ++ acc) log

/-- The history-buffer update of `update_monitoring_data`
(src/main.py lines 102-110): append, then keep only the last
`max_points = 100` entries (`lst[-max_points:]`). -/
def appendTrunc {α : Type} (l : List α) (x : α) : List α :=
  let l2 := l ++ [x]
  if l2.length > 100 then l2.drop (l2.length - 100) else l2

/-- A user report as appended by the report form (src/main.py lines 272-278). -/
structure ReportRecord where
  type : String
  title : String
  description : String
  priority : String
  time : ℕ
deriving DecidableEq, Repr

/-- The session state of src/main.py: the five `monitoring_data` history
lists (lines 19-26), the alert log (line 32) and the report list (line 30). -/
structure MonitoringState where
  acoustic : List ℚ
  vibration : List ℚ
  temperature : List ℚ
  humidity : List ℚ
  timestamps : List ℕ
  alerts : List AlertRecord
  reports : List ReportRecord
deriving DecidableEq, Repr

/-- `update_monitoring_data` (src/main.py lines 98-125), parameterised by the
clock reading `t` (`datetime.now()`) and the sampled reading `r`
(`generate_sensor_data()`): each history list gains the new value and is
truncated to the last 100 entries, and the alert loop runs on the log. -/
def update_monitoring_data (t : ℕ) (r : Reading) (s : MonitoringState) : MonitoringState :=
  { acoustic := appendTrunc s.acoustic r.acoustic
    vibration := appendTrunc s.vibration r.vibration
    temperature := appendTrunc s.temperature r.temperature
    humidity := appendTrunc s.humidity r.humidity
    timestamps := appendTrunc s.timestamps t
    alerts := updateAlerts t r s.alerts
    reports := s.reports }

/-- The Clear Data button handler (src/main.py lines 146-149): every key of
`monitoring_data` is reset to the empty list; nothing else is touched. -/
def clear_data (s : MonitoringState) : MonitoringState :=
  { s with acoustic := [], vibration := [], temperature := [],
           humidity := [], timestamps := [] }

/-- `get_status_color` (src/main.py lines 91-96). -/
def get_status_color (value : ℚ) (metric : Metric) : String :=
  if value ≥ (THRESHOLDS metric).danger then "danger"
  else if value ≥ (THRESHOLDS metric).warning then "warning"
  else "good"

/-- The initial session state (src/main.py lines 19-32): all history lists,
the alert log and the report list start empty. -/
def initState : MonitoringState :=
  { acoustic := [], vibration := [], temperature := [], humidity := [],
    timestamps := [], alerts := [], reports := [] }

/-- A concrete 101-element value stream, used to exercise the buffer. -/
def vs101 : List ℚ := List.map Nat.cast (List.range 101)

/-- A concrete 100-element (at-capacity) history list. -/
def ls100 : List ℚ := List.map Nat.cast (List.range 100)

/-- The invariant on the history buffers: the five lists share one length,
which never exceeds the capacity `max_points = 100`. -/
def histLensEqualLe100 (s : MonitoringState) : Prop :=
  s.vibration.length = s.acoustic.length ∧
  s.temperature.length = s.acoustic.length ∧
  s.humidity.length = s.acoustic.length ∧
  s.timestamps.length = s.acoustic.length ∧
  s.acoustic.length ≤ 100

/-- Unfolding of `calculate_health_score` to the explicit weighted formula. -/
theorem health_score_formula (data : Reading) :
    calculate_health_score data =
      100 * ((3/10) * (1 - (data.acoustic - 40) / (90 - 40))
        + (3/10) * (1 - data.vibration)
        + (1/5) * (1 - |data.temperature - 25| / 15)
        + (1/5) * (1 - |data.humidity - 60| / 40)) := by
  simp only [calculate_health_score, metricsOrder, normalized_values, weights,
    THRESHOLDS, List.map_cons, List.map_nil, List.sum_cons, List.sum_nil]
  ring

/-- C1: for every reading, the health score is exactly the weighted sum
100*(0.3*(1-(a-40)/(90-40)) + 0.3*(1-v) + 0.2*(1-|t-25|/15) + 0.2*(1-|h-60|/40)). -/
theorem C1_health_score_weighted_sum (data : Reading) :
    calculate_health_score data =
      100 * ((3/10) * (1 - (data.acoustic - 40) / (90 - 40))
        + (3/10) * (1 - data.vibration)
        + (1/5) * (1 - |data.temperature - 25| / 15)
        + (1/5) * (1 - |data.humidity - 60| / 40)) :=
  health_score_formula data

/-- C2: whenever each metric value lies in its configured [min, max] range,
the health score lies in [0, 100]. -/
theorem C2_health_score_in_range (data : Reading)
    (ha1 : 40 ≤ data.acoustic) (ha2 : data.acoustic ≤ 90)
    (hv1 : 0 ≤ data.vibration) (hv2 : data.vibration ≤ 1)
    (ht1 : 20 ≤ data.temperature) (ht2 : data.temperature ≤ 35)
    (hh1 : 30 ≤ data.humidity) (hh2 : data.humidity ≤ 90) :
    0 ≤ calculate_health_score data ∧ calculate_health_score data ≤ 100 := by
  rw [health_score_formula]
  have htabs : |data.temperature - 25| ≤ 10 := abs_le.mpr ⟨by linarith, by linarith⟩
  have htabs0 : 0 ≤ |data.temperature - 25| := abs_nonneg _
  have hhabs : |data.humidity - 60| ≤ 30 := abs_le.mpr ⟨by linarith, by linarith⟩
  have hhabs0 : 0 ≤ |data.humidity - 60| := abs_nonneg _
  constructor <;> linarith

/-- Witness for C2 at the concrete in-range reading (65, 1/2, 25, 60). -/
theorem C2_health_score_in_range_witness :
    0 ≤ calculate_health_score ⟨65, 1/2, 25, 60⟩ ∧
      calculate_health_score ⟨65, 1/2, 25, 60⟩ ≤ 100 :=
  C2_health_score_in_range ⟨65, 1/2, 25, 60⟩ (by norm_num) (by norm_num)
    (by norm_num) (by norm_num) (by norm_num) (by norm_num) (by norm_num) (by norm_num)

/-- For every metric the configured warning level is below the danger level. -/
theorem warning_lt_danger (m : Metric) :
    (THRESHOLDS m).warning < (THRESHOLDS m).danger := by
  cases m <;> norm_num [THRESHOLDS]

/-- C3: a value at or above the danger level (including exactly at it, which
also meets the warning level) yields exactly one alert, and it is Critical. -/
theorem C3_danger_yields_one_critical (t : ℕ) (m : Metric) (v : ℚ)
    (h : (THRESHOLDS m).danger ≤ v) :
    (alertsForMetric t m v).length = 1 ∧
      ∀ a ∈ alertsForMetric t m v, a.type = AlertType.CRITICAL := by
  unfold alertsForMetric
  rw [if_pos h]
  simp

/-- Witness for C3: acoustic value exactly at the danger level 75. -/
theorem C3_danger_yields_one_critical_witness :
    (75 : ℚ) ≥ (THRESHOLDS .acoustic).danger ∧
      ((alertsForMetric 0 .acoustic 75).length = 1 ∧
        ∀ a ∈ alertsForMetric 0 .acoustic 75, a.type = AlertType.CRITICAL) :=
  ⟨by norm_num [THRESHOLDS], C3_danger_yields_one_critical 0 .acoustic 75 (by norm_num [THRESHOLDS])⟩

/-- C4: a value in [warning, danger) yields exactly one Warning alert; a value
strictly below the warning level yields no alert. -/
theorem C4_warning_band_and_below (t : ℕ) (m : Metric) (v : ℚ) :
    ((THRESHOLDS m).warning ≤ v → v < (THRESHOLDS m).danger →
      (alertsForMetric t m v).length = 1 ∧
        ∀ a ∈ alertsForMetric t m v, a.type = AlertType.WARNING) ∧
    (v < (THRESHOLDS m).warning → alertsForMetric t m v = []) := by
  constructor
  · intro hw hd
    unfold alertsForMetric
    rw [if_neg (by exact not_le.mpr hd), if_pos hw]
    simp
  · intro hw
    have hd : ¬ v ≥ (THRESHOLDS m).danger :=
      not_le.mpr (hw.trans (warning_lt_danger m))
    unfold alertsForMetric
    rw [if_neg hd, if_neg (not_le.mpr hw)]

/-- Witness for C4: acoustic value exactly at the warning level 65 gives one
Warning alert; acoustic value 60 gives none. -/
theorem C4_warning_band_and_below_witness :
    ((alertsForMetric 0 .acoustic 65).length = 1 ∧
      ∀ a ∈ alertsForMetric 0 .acoustic 65, a.type = AlertType.WARNING) ∧
    alertsForMetric 0 .acoustic 60 = [] :=
  ⟨(C4_warning_band_and_below 0 .acoustic 65).1 (by norm_num [THRESHOLDS])
      (by norm_num [THRESHOLDS]),
    (C4_warning_band_and_below 0 .acoustic 60).2 (by norm_num [THRESHOLDS])⟩

/-- The per-metric alert list is empty or a singleton, so it is its own
reverse. -/
theorem alertsForMetric_reverse (t : ℕ) (m : Metric) (v : ℚ) :
    (alertsForMetric t m v).reverse = alertsForMetric t m v := by
  unfold alertsForMetric
  split_ifs <;> simp

/-- The alert loop only pushes this tick's batch in front of the old log. -/
theorem updateAlerts_eq_batch_append (t : ℕ) (r : Reading) (log : List AlertRecord) :
    updateAlerts t r log = updateAlerts t r [] ++ log := by
  simp [updateAlerts, metricsOrder, List.foldl, List.append_assoc]

/-- C5: one tick processes the metrics in the fixed order acoustic, vibration,
temperature, humidity, prepending each emitted alert, so the new log is the
tick's batch in reverse metric order followed by all prior alerts. -/
theorem C5_alert_ordering (t : ℕ) (r : Reading) (s : MonitoringState) :
    (update_monitoring_data t r s).alerts =
      (alertsForMetric t .acoustic r.acoustic ++ alertsForMetric t .vibration r.vibration
        ++ alertsForMetric t .temperature r.temperature
        ++ alertsForMetric t .humidity r.humidity).reverse ++ s.alerts := by
  simp [update_monitoring_data, updateAlerts, metricsOrder, List.foldl,
    List.reverse_append, alertsForMetric_reverse, Reading.value, List.append_assoc]

/-- C8: a tick only prepends alerts — the prior alert log survives unchanged,
in order, as a suffix of the new log. -/
theorem C8_old_alerts_are_suffix (t : ℕ) (r : Reading) (s : MonitoringState) :
    List.IsSuffix s.alerts (update_monitoring_data t r s).alerts :=
  ⟨updateAlerts t r [], (updateAlerts_eq_batch_append t r s.alerts).symm⟩

/-- C6: at the reading (acoustic 80, vibration 0.2, temperature 25,
humidity 60), one tick from the initial state emits exactly the single
Critical alert "High acoustic level detected: 80.0 dB", and the health score
is exactly 70. -/
theorem C6_end_to_end_example :
    (update_monitoring_data 0 ⟨80, 1/5, 25, 60⟩ initState).alerts =
      [{ time := 0, type := AlertType.CRITICAL,
         message := "High acoustic level detected: 80.0 dB" }] ∧
    calculate_health_score ⟨80, 1/5, 25, 60⟩ = 70 := by
  constructor
  · have hr : roundTenths 80 = 800 := by unfold roundTenths; norm_num
    have hf : format1 80 = "80.0" := by unfold format1; rw [hr]; decide
    have ha : alertsForMetric 0 .acoustic 80 =
        [{ time := 0, type := AlertType.CRITICAL,
           message := "High acoustic level detected: 80.0 dB" }] := by
      unfold alertsForMetric
      rw [if_pos (by norm_num [THRESHOLDS])]
      rw [show (THRESHOLDS Metric.acoustic).unit = "dB" from rfl, hf]
      rfl
    have hv : alertsForMetric 0 .vibration (1/5) = [] := by
      unfold alertsForMetric
      rw [if_neg (by norm_num [THRESHOLDS]), if_neg (by norm_num [THRESHOLDS])]
    have ht : alertsForMetric 0 .temperature 25 = [] := by
      unfold alertsForMetric
      rw [if_neg (by norm_num [THRESHOLDS]), if_neg (by norm_num [THRESHOLDS])]
    have hh : alertsForMetric 0 .humidity 60 = [] := by
      unfold alertsForMetric
      rw [if_neg (by norm_num [THRESHOLDS]), if_neg (by norm_num [THRESHOLDS])]
    show updateAlerts 0 ⟨80, 1/5, 25, 60⟩ [] = _
    simp only [updateAlerts, metricsOrder, List.foldl, Reading.value]
    rw [ha, hv, ht, hh]
    rfl
  · norm_num [calculate_health_score, metricsOrder, normalized_values, weights, THRESHOLDS]

/-- Below capacity, the history update is a plain append. -/
theorem appendTrunc_of_lt {α : Type} (l : List α) (x : α) (h : l.length < 100) :
    appendTrunc l x = l ++ [x] := by
  unfold appendTrunc
  rw [if_neg (by simp only [List.length_append, List.length_cons, List.length_nil]; omega)]

/-- At capacity, the history update drops exactly the oldest element. -/
theorem appendTrunc_of_full {α : Type} (l : List α) (x : α) (h : l.length = 100) :
    appendTrunc l x = l.tail ++ [x] := by
  unfold appendTrunc
  rw [if_pos (by simp [h])]
  have hd : (l ++ [x]).length - 100 = 1 := by simp [h]
  rw [hd, List.drop_append_of_le_length (by omega), List.drop_one]

/-- While the buffer stays within capacity, folding the update just appends. -/
theorem foldl_appendTrunc_small {α : Type} :
    ∀ (vs acc : List α), acc.length + vs.length ≤ 100 →
      vs.foldl appendTrunc acc = acc ++ vs := by
  intro vs
  induction vs with
  | nil => intro acc _; simp
  | cons v tl ih =>
    intro acc h
    simp only [List.length_cons] at h
    simp only [List.foldl_cons]
    rw [appendTrunc_of_lt _ _ (by omega),
      ih (acc ++ [v]) (by simp only [List.length_append, List.length_cons, List.length_nil]; omega)]
    simp

/-- Folding 101 values into an empty buffer leaves exactly the last 100. -/
theorem foldl_appendTrunc_101 (vs : List ℚ) (h : vs.length = 101) :
    vs.foldl appendTrunc [] = vs.tail := by
  rcases (List.eq_nil_or_concat vs).resolve_left
      (by intro h0; rw [h0] at h; exact absurd h (by decide)) with ⟨ws, x, rfl⟩
  simp only [List.concat_eq_append] at h ⊢
  have hws : ws.length = 100 := by
    simp only [List.length_append, List.length_cons, List.length_nil] at h
    omega
  rw [List.foldl_append, foldl_appendTrunc_small ws [] (by simp [hws]),
    List.foldl_cons, List.foldl_nil, List.nil_append,
    appendTrunc_of_full _ _ hws]
  cases ws with
  | nil => simp at hws
  | cons w ws2 => rfl

/-- C7: starting from the empty buffer, 101 appends leave exactly 100 values,
the first-appended value is gone, the rest stand oldest-first with the newest
last, and any append at capacity drops exactly the oldest element. -/
theorem C7_buffer_eviction (vs : List ℚ) (h : vs.length = 101)
    (v0 : ℚ) (hv0 : vs.head? = some v0) (hnd : vs.Nodup)
    (l : List ℚ) (x : ℚ) (hl : l.length = 100) :
    (vs.foldl appendTrunc []).length = 100 ∧
    vs.foldl appendTrunc [] = vs.tail ∧
    v0 ∉ vs.foldl appendTrunc [] ∧
    appendTrunc l x = l.tail ++ [x] := by
  have heq : vs.foldl appendTrunc [] = vs.tail := foldl_appendTrunc_101 vs h
  refine ⟨?_, heq, ?_, appendTrunc_of_full l x hl⟩
  · rw [heq, List.length_tail, h]
  · rw [heq]
    cases vs with
    | nil => simp at h
    | cons a tl =>
      simp only [List.head?_cons, Option.some_inj] at hv0
      subst hv0
      exact (List.nodup_cons.mp hnd).1

/-- Witness for C7 at the concrete stream 0, 1, ..., 100 and an at-capacity
buffer holding 0, 1, ..., 99. -/
theorem C7_buffer_eviction_witness :
    (vs101.length = 101 ∧ vs101.head? = some 0 ∧ vs101.Nodup ∧ ls100.length = 100) ∧
    ((vs101.foldl appendTrunc []).length = 100 ∧
      vs101.foldl appendTrunc [] = vs101.tail ∧
      (0 : ℚ) ∉ vs101.foldl appendTrunc [] ∧
      appendTrunc ls100 0 = ls100.tail ++ [0]) :=
  ⟨⟨by rw [vs101, List.length_map, List.length_range],
      by decide,
      by rw [vs101]; exact List.Nodup.map Nat.cast_injective (List.nodup_range 101),
      by rw [ls100, List.length_map, List.length_range]⟩,
    C7_buffer_eviction vs101 (by rw [vs101, List.length_map, List.length_range])
      0 (by decide)
      (by rw [vs101]; exact List.Nodup.map Nat.cast_injective (List.nodup_range 101))
      ls100 0 (by rw [ls100, List.length_map, List.length_range])⟩

/-- The history update's length: one more than before, capped at 100. -/
theorem appendTrunc_length {α : Type} (l : List α) (x : α) :
    (appendTrunc l x).length = min (l.length + 1) 100 ∨ l.length > 100 := by
  by_cases h : l.length > 100
  · exact Or.inr h
  · left
    unfold appendTrunc
    by_cases hc : (l ++ [x]).length > 100
    · rw [if_pos hc]
      simp only [List.length_drop, List.length_append, List.length_cons, List.length_nil] at hc ⊢
      omega
    · rw [if_neg hc]
      simp only [List.length_append, List.length_cons, List.length_nil] at hc ⊢
      omega

/-- C9: the tick update preserves the invariant that the five history lists
share one length of at most 100, and each list's length becomes
min(previous + 1, 100). -/
theorem C9_invariant_preserved (t : ℕ) (r : Reading) (s : MonitoringState)
    (h : histLensEqualLe100 s) :
    histLensEqualLe100 (update_monitoring_data t r s) ∧
    (update_monitoring_data t r s).acoustic.length = min (s.acoustic.length + 1) 100 := by
  obtain ⟨h1, h2, h3, h4, h5⟩ := h
  have la := (appendTrunc_length s.acoustic r.acoustic).resolve_right (by omega)
  have lv := (appendTrunc_length s.vibration r.vibration).resolve_right (by omega)
  have lt2 := (appendTrunc_length s.temperature r.temperature).resolve_right (by omega)
  have lh := (appendTrunc_length s.humidity r.humidity).resolve_right (by omega)
  have lts := (appendTrunc_length s.timestamps t).resolve_right (by omega)
  unfold histLensEqualLe100 update_monitoring_data
  simp only
  rw [la, lv, lt2, lh, lts]
  refine ⟨⟨?_, ?_, ?_, ?_, ?_⟩, ?_⟩ <;> omega

/-- Witness for C9 at the initial (empty) state. -/
theorem C9_invariant_preserved_witness :
    histLensEqualLe100 initState ∧
    (histLensEqualLe100 (update_monitoring_data 0 ⟨40, 0, 25, 60⟩ initState) ∧
      (update_monitoring_data 0 ⟨40, 0, 25, 60⟩ initState).acoustic.length =
        min (initState.acoustic.length + 1) 100) :=
  ⟨by constructor <;> simp [initState, histLensEqualLe100],
    C9_invariant_preserved 0 ⟨40, 0, 25, 60⟩ initState
      (by constructor <;> simp [initState, histLensEqualLe100])⟩

/-- C10: Clear Data empties all five history lists and leaves the alert log
and the report list untouched. -/
theorem C10_clear_data (s : MonitoringState) :
    (clear_data s).acoustic = [] ∧ (clear_data s).vibration = [] ∧
    (clear_data s).temperature = [] ∧ (clear_data s).humidity = [] ∧
    (clear_data s).timestamps = [] ∧
    (clear_data s).alerts = s.alerts ∧ (clear_data s).reports = s.reports :=
  ⟨rfl, rfl, rfl, rfl, rfl, rfl, rfl⟩
